import Mathlib

/-!
Verification of the agent-service of the bharatvarsh website:
a shallow embedding of `src/agent-service/rag_tool.py` (the `LoreTool`
class and its `lookup_lore` method) and of the liveness endpoint of
`src/agent-service/main.py` (the `HealthHandler` class), together with
theorems settling the specified behavioral claims.
-/

namespace AgentService

/-- A log entry emitted through the `logging` module: either
`logger.info(msg)` or `logger.error(msg)`. -/
inductive LogEntry where
  | info (msg : String)
  | error (msg : String)
deriving DecidableEq, Repr

/-- The process environment, restricted to the two variables read by
`LoreTool.__init__`: `INTERNAL_API_URL` and `INTERNAL_API_SECRET`.
`none` models an unset variable (Python `os.getenv` returning `None`). -/
structure Env where
  internal_api_url : Option String
  internal_api_secret : Option String
deriving DecidableEq, Repr

/-- Default endpoint URL, the second argument of
`os.getenv("INTERNAL_API_URL", ...)` in `rag_tool.py`. -/
def INTERNAL_API_URL_DEFAULT : String := "http://localhost:3000/api/internal/rag"

/-- The `LoreTool` object state: the two fields set in `__init__` and
never mutated afterwards. -/
structure LoreTool where
  api_url : String
  api_secret : Option String
deriving DecidableEq, Repr

/-- `LoreTool.__init__`: `api_url` falls back to the default when the
environment variable is unset; `api_secret` is taken verbatim (possibly
`None`). -/
def LoreTool.init (env : Env) : LoreTool :=
  { api_url := env.internal_api_url.getD INTERNAL_API_URL_DEFAULT
    api_secret := env.internal_api_secret }

/-- Python string interpolation of an `Optional[str]`: an f-string
renders `None` as the literal text `"None"`. -/
def pyStrOfOpt : Option String → String
  | some s => s
  | none => "None"

/-- The HTTP response the backend delivers when the request itself does
not raise: a status code, the raw body text (what `response.text()`
yields), and the result of `response.json()` — `Except.error msg`
when JSON decoding raises an exception carrying message `msg` (a
malformed body), `Except.ok kvs` when it yields an object whose
string-valued fields are the association list `kvs`. -/
structure HttpResponse where
  status : Nat
  bodyText : String
  jsonBody : Except String (List (String × String))
deriving Repr

/-- One behavior of the RAG backend for a single call, as observed by
`lookup_lore`: either the `session.post` request raises a Python
`Exception` whose message is `msg` (network failure, DNS error, the
5-second timeout firing, connection reset, ...), or it completes with
an `HttpResponse`. -/
inductive Backend where
  | exn (msg : String)
  | reply (resp : HttpResponse)
deriving Repr

/-- `dict.get(key, default)` on a string-valued JSON object. -/
def jsonGet (kvs : List (String × String)) (key default : String) : String :=
  match kvs.find? (fun p => p.1 == key) with
  | some p => p.2
  | none => default

/-- The outbound HTTP request built by `lookup_lore`: a `session.post`
call with JSON body fields `query` and `spoilerMode`, an
`Authorization` header, and `timeout=5.0` (seconds). -/
structure OutboundRequest where
  method : String
  url : String
  bodyQuery : String
  bodySpoilerMode : String
  authorization : String
  timeoutSeconds : Nat
deriving DecidableEq, Repr

/-- Fixed fallback text for the `except Exception` branch. -/
def DISTURBANCE_MSG : String :=
  "A disturbance in the Mesh prevents me from accessing the archives."

/-- Fixed fallback text for the non-200 status branch. -/
def HAZY_MSG : String :=
  "I cannot access the archives at this moment. My connection is hazy."

/-- Fixed fallback text for the empty-or-missing `context` branch. -/
def SILENT_MSG : String :=
  "The archives are silent on this matter. I find no records matching your query."

/-- Everything one call of `lookup_lore` does: the outbound requests it
issues (the method body contains a single `session.post` with no loop
and no retry, so this list always has exactly one element), the string
it returns, the log entries it emits, and the tool object state after
the call (the method never assigns to `self`, so this always equals the
state before the call). -/
structure ToolInvocation where
  requests : List OutboundRequest
  result : String
  logs : List LogEntry
  toolAfter : LoreTool
deriving DecidableEq, Repr

/-- Shallow embedding of `LoreTool.lookup_lore(query, spoiler_mode="S1")`.
The backend's behavior for this one call is passed as `backend`.
Branches, in source order: the `except Exception` handler (entered when
`session.post` raises, and also when `response.json()` raises on a
malformed 200 body — both log `Failed to query RAG API:` followed by
the exception text and return the disturbance message); the
`response.status != 200` branch (logs status and body, returns the hazy
message); the empty-`context` branch; and the success branch returning
`FOUND ARCHIVE RECORDS:` plus a newline plus the context. -/
def LoreTool.lookup_lore (tool : LoreTool) (backend : Backend)
    (query : String) (spoiler_mode : String := "S1") : ToolInvocation :=
  let infoLog : LogEntry :=
    .info ("Looking up lore: " ++ query ++ " [Mode: " ++ spoiler_mode ++ "]")
  let req : OutboundRequest :=
    { method := "POST"
      url := tool.api_url
      bodyQuery := query
      bodySpoilerMode := spoiler_mode
      authorization := "Bearer " ++ pyStrOfOpt tool.api_secret
      timeoutSeconds := 5 }
  match backend with
  | .exn e =>
      { requests := [req]
        result := DISTURBANCE_MSG
        logs := [infoLog, .error ("Failed to query RAG API: " ++ e)]
        toolAfter := tool }
  | .reply resp =>
      if resp.status ≠ 200 then
        { requests := [req]
          result := HAZY_MSG
          logs := [infoLog,
            .error ("RAG API Error (" ++ toString resp.status ++ "): " ++ resp.bodyText)]
          toolAfter := tool }
      else
        match resp.jsonBody with
        | .error e =>
            { requests := [req]
              result := DISTURBANCE_MSG
              logs := [infoLog, .error ("Failed to query RAG API: " ++ e)]
              toolAfter := tool }
        | .ok kvs =>
            let context := jsonGet kvs "context" ""
            if context = "" then
              { requests := [req]
                result := SILENT_MSG
                logs := [infoLog]
                toolAfter := tool }
            else
              { requests := [req]
                result := "FOUND ARCHIVE RECORDS:\n" ++ context
                logs := [infoLog]
                toolAfter := tool }

/-- A reply sent by the liveness HTTP server: status code, the value of
the `Content-Type` header when one is sent, and the body bytes as text. -/
structure HttpReply where
  status : Nat
  contentType : Option String
  body : String
deriving DecidableEq, Repr

/-- An inbound HTTP request as seen by `BaseHTTPRequestHandler`:
`command` is the method name, `path` the request target. -/
structure HealthRequest where
  command : String
  path : String
deriving DecidableEq, Repr

/-- `HealthHandler.do_GET` from `main.py`: send status 200, header
`Content-Type: text/plain`, and write the body `OK`. The request path
is not inspected. -/
def HealthHandler.do_GET : HttpReply :=
  { status := 200, contentType := some "text/plain", body := "OK" }

/-- Modelled from the Python standard library dispatch that
`HealthHandler` inherits: `BaseHTTPRequestHandler.handle_one_request`
looks up a `do_<METHOD>` attribute for the request method and, when the
handler class defines none (here: every method other than `GET`),
answers with `send_error(501, "Unsupported method ...")` — an
`text/html;charset=utf-8` error page whose HTML body is abbreviated
here to its message line. -/
def HealthHandler.handle (req : HealthRequest) : HttpReply :=
  if req.command = "GET" then
    HealthHandler.do_GET
  else
    { status := 501
      contentType := some "text/html;charset=utf-8"
      body := "Unsupported method " ++ req.command }

/-- Helper: the outbound request a call of `lookup_lore` issues, in every
branch of the method body: exactly one POST to `tool.api_url` with the
JSON body fields, the bearer header, and the 5-second timeout. -/
theorem lookup_lore_requests_eq (tool : LoreTool) (backend : Backend) (q m : String) :
    (tool.lookup_lore backend q m).requests =
      [{ method := "POST"
         url := tool.api_url
         bodyQuery := q
         bodySpoilerMode := m
         authorization := "Bearer " ++ pyStrOfOpt tool.api_secret
         timeoutSeconds := 5 }] := by
  cases backend with
  | exn e => rfl
  | reply resp =>
    unfold LoreTool.lookup_lore
    by_cases h : resp.status ≠ 200
    · simp [h]
    · simp only [h, if_false]
      cases hj : resp.jsonBody with
      | error e => simp
      | ok kvs =>
        by_cases hc : jsonGet kvs "context" "" = "" <;> simp [hc]

/-- Helper: `lookup_lore` never assigns to `self`, so the tool state
after a call equals the state before it. -/
theorem lookup_lore_toolAfter_eq (tool : LoreTool) (backend : Backend) (q m : String) :
    (tool.lookup_lore backend q m).toolAfter = tool := by
  cases backend with
  | exn e => rfl
  | reply resp =>
    unfold LoreTool.lookup_lore
    by_cases h : resp.status ≠ 200
    · simp [h]
    · simp only [h, if_false]
      cases hj : resp.jsonBody with
      | error e => simp
      | ok kvs =>
        by_cases hc : jsonGet kvs "context" "" = "" <;> simp [hc]

/-- Concrete environment used by several witness theorems: the URL
variable unset, the secret set. -/
def witnessEnv : Env :=
  { internal_api_url := none, internal_api_secret := some "test-secret" }

/-- The tool the witness theorems invoke. -/
def witnessTool : LoreTool := LoreTool.init witnessEnv

/-- Claim C1: for every input and every backend behavior, `lookup_lore`
returns normally with one of the persona text results (the Lean
function is total, mirroring that the Python method catches every
`Exception` and never propagates one); and whenever an exception is
raised — by `session.post` (network failure, timeout, HTTP transport
error) or by `response.json()` on a malformed 200 body — the result is
exactly the disturbance message and the exception text is logged. -/
theorem lookup_lore_recovers_every_exception (tool : LoreTool) (backend : Backend)
    (q m : String) :
    ((tool.lookup_lore backend q m).result = DISTURBANCE_MSG ∨
     (tool.lookup_lore backend q m).result = HAZY_MSG ∨
     (tool.lookup_lore backend q m).result = SILENT_MSG ∨
     ∃ c, (tool.lookup_lore backend q m).result = "FOUND ARCHIVE RECORDS:\n" ++ c) ∧
    (∀ e : String,
      (backend = Backend.exn e ∨
       ∃ resp, backend = Backend.reply resp ∧ resp.status = 200 ∧
         resp.jsonBody = Except.error e) →
      (tool.lookup_lore backend q m).result = DISTURBANCE_MSG ∧
      LogEntry.error ("Failed to query RAG API: " ++ e) ∈
        (tool.lookup_lore backend q m).logs) := by
  constructor
  · cases backend with
    | exn e => exact Or.inl rfl
    | reply resp =>
      unfold LoreTool.lookup_lore
      by_cases h : resp.status ≠ 200
      · simp [h]
      · simp only [h, if_false]
        cases hj : resp.jsonBody with
        | error e => simp
        | ok kvs =>
          by_cases hc : jsonGet kvs "context" "" = "" <;> simp [hc]
  · intro e he
    rcases he with he | ⟨resp, hb, hstatus, hjson⟩
    · subst he
      exact ⟨rfl, by simp [LoreTool.lookup_lore]⟩
    · subst hb
      unfold LoreTool.lookup_lore
      simp [hstatus, hjson]

/-- Claim C1 witness: a timed-out request yields the disturbance message
and a log entry recording the exception. -/
theorem lookup_lore_recovers_timeout_witness :
    (witnessTool.lookup_lore (Backend.exn "TimeoutError") "Who rules the Mesh" "S1").result
        = DISTURBANCE_MSG ∧
    LogEntry.error ("Failed to query RAG API: " ++ "TimeoutError") ∈
      (witnessTool.lookup_lore (Backend.exn "TimeoutError") "Who rules the Mesh" "S1").logs :=
  (lookup_lore_recovers_every_exception witnessTool (Backend.exn "TimeoutError")
    "Who rules the Mesh" "S1").2 "TimeoutError" (Or.inl rfl)

/-- Claim C2: on an HTTP 200 response whose JSON `context` field is a
non-empty string `c`, the result is the header line `FOUND ARCHIVE
RECORDS:`, a newline, and `c`. -/
theorem lookup_lore_found_records_on_nonempty_context (tool : LoreTool)
    (q m : String) (resp : HttpResponse) (kvs : List (String × String)) (c : String)
    (hstatus : resp.status = 200) (hjson : resp.jsonBody = Except.ok kvs)
    (hc : jsonGet kvs "context" "" = c) (hne : c ≠ "") :
    (tool.lookup_lore (Backend.reply resp) q m).result = "FOUND ARCHIVE RECORDS:\n" ++ c := by
  unfold LoreTool.lookup_lore
  subst hc
  simp [hstatus, hjson, hne]

/-- Claim C2 witness: the backend answering 200 with context
`Ashen King died in Act 2` produces exactly
`FOUND ARCHIVE RECORDS:` + newline + that context. -/
theorem lookup_lore_found_records_ashen_king :
    (witnessTool.lookup_lore
        (Backend.reply
          { status := 200
            bodyText := ""
            jsonBody := Except.ok [("context", "Ashen King died in Act 2")] })
        "How did the Ashen King die" "S1").result
      = "FOUND ARCHIVE RECORDS:\nAshen King died in Act 2" :=
  lookup_lore_found_records_on_nonempty_context witnessTool
    "How did the Ashen King die" "S1"
    { status := 200, bodyText := "", jsonBody := Except.ok [("context", "Ashen King died in Act 2")] }
    [("context", "Ashen King died in Act 2")] "Ashen King died in Act 2"
    rfl rfl rfl (by decide)

/-- Claim C3: on an HTTP 200 response whose JSON `context` field is the
empty string or missing (so `data.get("context", "")` yields `""`), the
result is exactly the fixed archives-are-silent message. -/
theorem lookup_lore_silent_on_empty_context (tool : LoreTool)
    (q m : String) (resp : HttpResponse) (kvs : List (String × String))
    (hstatus : resp.status = 200) (hjson : resp.jsonBody = Except.ok kvs)
    (hempty : jsonGet kvs "context" "" = "") :
    (tool.lookup_lore (Backend.reply resp) q m).result = SILENT_MSG := by
  unfold LoreTool.lookup_lore
  simp [hstatus, hjson, hempty]

/-- Claim C3 witness: the backend answering 200 with body containing an
empty `context` field yields the silent-archives message, and so does a
body missing the field entirely. -/
theorem lookup_lore_silent_witness :
    (witnessTool.lookup_lore
        (Backend.reply { status := 200, bodyText := "", jsonBody := Except.ok [("context", "")] })
        "Unknown topic" "S1").result = SILENT_MSG ∧
    (witnessTool.lookup_lore
        (Backend.reply { status := 200, bodyText := "", jsonBody := Except.ok [] })
        "Unknown topic" "S1").result = SILENT_MSG :=
  ⟨lookup_lore_silent_on_empty_context witnessTool "Unknown topic" "S1"
      { status := 200, bodyText := "", jsonBody := Except.ok [("context", "")] }
      [("context", "")] rfl rfl rfl,
   lookup_lore_silent_on_empty_context witnessTool "Unknown topic" "S1"
      { status := 200, bodyText := "", jsonBody := Except.ok [] }
      [] rfl rfl rfl⟩

/-- Claim C4: on any response with a non-200 status, the result is
exactly the fixed hazy-connection message and the status and body are
logged through `logger.error`. -/
theorem lookup_lore_hazy_on_non_200 (tool : LoreTool) (q m : String)
    (resp : HttpResponse) (hstatus : resp.status ≠ 200) :
    (tool.lookup_lore (Backend.reply resp) q m).result = HAZY_MSG ∧
    LogEntry.error ("RAG API Error (" ++ toString resp.status ++ "): " ++ resp.bodyText) ∈
      (tool.lookup_lore (Backend.reply resp) q m).logs := by
  unfold LoreTool.lookup_lore
  simp [hstatus]

/-- Claim C4 witness: a 500 response with body `Internal Server Error`
yields the hazy message and the corresponding error log entry. -/
theorem lookup_lore_hazy_witness :
    (witnessTool.lookup_lore
        (Backend.reply { status := 500, bodyText := "Internal Server Error", jsonBody := Except.error "unread" })
        "Any query" "S1").result = HAZY_MSG ∧
    LogEntry.error ("RAG API Error (" ++ toString (500 : Nat) ++ "): " ++ "Internal Server Error") ∈
      (witnessTool.lookup_lore
        (Backend.reply { status := 500, bodyText := "Internal Server Error", jsonBody := Except.error "unread" })
        "Any query" "S1").logs :=
  lookup_lore_hazy_on_non_200 witnessTool "Any query" "S1"
    { status := 500, bodyText := "Internal Server Error", jsonBody := Except.error "unread" }
    (by decide)

/-- Claim C5, counterexample: `HealthHandler` defines only `do_GET`, so
an HTTP POST to the liveness endpoint is answered by the inherited
501 Unsupported-method error, not by 200 `OK` — refuting the claim that
every request method receives status 200, content-type text/plain,
body `OK`. -/
theorem health_handler_post_not_ok :
    ¬ ((HealthHandler.handle { command := "POST", path := "/" }).status = 200 ∧
       (HealthHandler.handle { command := "POST", path := "/" }).contentType = some "text/plain" ∧
       (HealthHandler.handle { command := "POST", path := "/" }).body = "OK") := by
  decide

/-- Claim C5, amended: for every request path, a GET request to the
liveness endpoint is answered with status 200, content-type
text/plain, and body exactly `OK`; a request with any other method is
answered with status 501 (the inherited Unsupported-method error). -/
theorem health_handler_get_ok_others_501 (req : HealthRequest) :
    (req.command = "GET" →
      HealthHandler.handle req =
        { status := 200, contentType := some "text/plain", body := "OK" }) ∧
    (req.command ≠ "GET" → (HealthHandler.handle req).status = 501) := by
  constructor
  · intro h
    simp [HealthHandler.handle, h, HealthHandler.do_GET]
  · intro h
    simp [HealthHandler.handle, h]

/-- Claim C5 witness: a GET for an arbitrary path gets 200 text/plain
`OK`, and a POST gets 501. -/
theorem health_handler_witness :
    HealthHandler.handle { command := "GET", path := "/some/odd/path" } =
      { status := 200, contentType := some "text/plain", body := "OK" } ∧
    (HealthHandler.handle { command := "POST", path := "/" }).status = 501 :=
  ⟨(health_handler_get_ok_others_501 { command := "GET", path := "/some/odd/path" }).1 rfl,
   (health_handler_get_ok_others_501 { command := "POST", path := "/" }).2 (by decide)⟩

/-- Claim C6: calling `lookup_lore` with only the query argument — the
Lean default argument mirrors the Python default `spoiler_mode="S1"` —
sends an outbound body whose `spoilerMode` field is `S1`. -/
theorem lookup_lore_default_spoiler_mode (tool : LoreTool) (backend : Backend)
    (q : String) :
    (tool.lookup_lore backend q).requests.map (fun r => r.bodySpoilerMode) = ["S1"] := by
  rw [lookup_lore_requests_eq]
  rfl

/-- Claim C7: every invocation issues exactly one outbound POST to the
configured URL (environment variable `INTERNAL_API_URL`, defaulting to
`http://localhost:3000/api/internal/rag`), with body fields `query` and
`spoilerMode`, header `Authorization: Bearer` + the secret, and the
fixed 5-second timeout. -/
theorem lookup_lore_single_post_request (env : Env) (secret : String)
    (backend : Backend) (q m : String)
    (hsecret : env.internal_api_secret = some secret) :
    ((LoreTool.init env).lookup_lore backend q m).requests =
      [{ method := "POST"
         url := env.internal_api_url.getD INTERNAL_API_URL_DEFAULT
         bodyQuery := q
         bodySpoilerMode := m
         authorization := "Bearer " ++ secret
         timeoutSeconds := 5 }] := by
  rw [lookup_lore_requests_eq]
  simp [LoreTool.init, hsecret, pyStrOfOpt]

/-- Claim C7 witness: with the URL variable unset and the secret set, a
concrete call issues the single expected POST to the default URL. -/
theorem lookup_lore_single_post_request_witness :
    (witnessTool.lookup_lore (Backend.exn "refused") "Who is Bhoomi" "S2").requests =
      [{ method := "POST"
         url := "http://localhost:3000/api/internal/rag"
         bodyQuery := "Who is Bhoomi"
         bodySpoilerMode := "S2"
         authorization := "Bearer " ++ "test-secret"
         timeoutSeconds := 5 }] :=
  lookup_lore_single_post_request witnessEnv "test-secret"
    (Backend.exn "refused") "Who is Bhoomi" "S2" rfl

/-- Claim C8: `lookup_lore` keeps no cache and mutates no state — the
tool state after a call equals the state before it, and a repeated call
with identical arguments against the same backend behavior yields the
identical result. -/
theorem lookup_lore_idempotent (tool : LoreTool) (backend : Backend) (q m : String) :
    (tool.lookup_lore backend q m).toolAfter = tool ∧
    (((tool.lookup_lore backend q m).toolAfter).lookup_lore backend q m).result =
      (tool.lookup_lore backend q m).result := by
  refine ⟨lookup_lore_toolAfter_eq tool backend q m, ?_⟩
  rw [lookup_lore_toolAfter_eq tool backend q m]

/-- Claim C9: with `INTERNAL_API_SECRET` unset, `lookup_lore` still
issues its single outbound request — no precondition on the secret is
checked — and the interpolated header value is literally
`Bearer None`. -/
theorem lookup_lore_unset_secret_sends_bearer_none (env : Env) (backend : Backend)
    (q m : String) (hsecret : env.internal_api_secret = none) :
    ((LoreTool.init env).lookup_lore backend q m).requests.length = 1 ∧
    ∀ r ∈ ((LoreTool.init env).lookup_lore backend q m).requests,
      r.authorization = "Bearer None" := by
  rw [lookup_lore_requests_eq]
  refine ⟨rfl, ?_⟩
  intro r hr
  rw [List.mem_singleton] at hr
  subst hr
  simp [LoreTool.init, hsecret, pyStrOfOpt]

/-- Claim C9 witness: a concrete environment with no secret still
produces exactly one request, carrying `Bearer None`. -/
theorem lookup_lore_unset_secret_witness :
    (((LoreTool.init { internal_api_url := none, internal_api_secret := none }).lookup_lore
        (Backend.exn "refused") "Any query" "S1").requests.length = 1) ∧
    ∀ r ∈ ((LoreTool.init { internal_api_url := none, internal_api_secret := none }).lookup_lore
        (Backend.exn "refused") "Any query" "S1").requests,
      r.authorization = "Bearer None" :=
  lookup_lore_unset_secret_sends_bearer_none
    { internal_api_url := none, internal_api_secret := none }
    (Backend.exn "refused") "Any query" "S1" rfl

/-- Claim C10: `lookup_lore` performs no validation of the spoiler-mode
argument: for every string `s`, including strings outside the
enumeration S1, S2, S3, the call proceeds and forwards `s` verbatim as
the `spoilerMode` field of the outbound body. -/
theorem lookup_lore_forwards_spoiler_mode_verbatim (tool : LoreTool)
    (backend : Backend) (q s : String) :
    (tool.lookup_lore backend q s).requests.map (fun r => r.bodySpoilerMode) = [s] := by
  rw [lookup_lore_requests_eq]
  rfl

end AgentService
